import Mathlib

/-!
Verification of the school-site CMS core (`src/types.ts`, `src/App.tsx`).

The data model is embedded from `src/types.ts`; the dashboard handlers
(`handleAddNews`, `handleDeleteNews`, `handleAddEvent`, `handleAddGallery`,
`handleUserAction`, the stats-field coercion, `ImagePicker.handleFile`) are
embedded from `src/App.tsx`.  The persistent-store collaborator
`./services/db` is imported by `App.tsx` but its source is not part of the
repository snapshot; its operations are modelled from the specification
(each such definition is marked `Modelled from the spec:`).

JS numbers that hold integral values (timestamps, the stats fields) are
embedded as `Nat`/`Int`; strings as `String`.
-/

/-- `UserRole` from `types.ts`: 'dev' | 'editor' | 'pending' | 'viewer'. -/
inductive UserRole where
  | dev
  | editor
  | pending
  | viewer
deriving DecidableEq

/-- `UserProfile` from `types.ts`. -/
structure UserProfile where
  uid : String
  email : String
  displayName : Option String
  role : UserRole
deriving DecidableEq

/-- `NewsItem` from `types.ts`. -/
structure NewsItem where
  id : String
  title : String
  date : String
  content : String
  active : Bool
deriving DecidableEq

/-- `EventItem` from `types.ts`. -/
structure EventItem where
  id : String
  title : String
  date : String
  location : String
  description : String
deriving DecidableEq

/-- `GalleryItem` from `types.ts`. -/
structure GalleryItem where
  id : String
  title : String
  url : String
  category : String
deriving DecidableEq

/-- `SchoolStats` from `types.ts`; JS `number` fields holding integers. -/
structure SchoolStats where
  students : Int
  teachers : Int
  awards : Int
  years : Int
deriving DecidableEq

/-- The inline `features` object of `SiteConfig` in `types.ts`. -/
structure SiteFeatures where
  showNews : Bool
  showEvents : Bool
  showGallery : Bool
deriving DecidableEq

/-- `SiteConfig` from `types.ts`. -/
structure SiteConfig where
  schoolName : String
  schoolId : String
  address : String
  email : String
  phone : String
  primaryColor : String
  accentColor : String
  heroTitle : String
  heroSubtitle : String
  heroImage : String
  principalName : String
  principalMessage : String
  principalPhoto : String
  stats : SchoolStats
  features : SiteFeatures
deriving DecidableEq

/-- `DEFAULT_CONFIG` from `types.ts`. -/
def DEFAULT_CONFIG : SiteConfig :=
  { schoolName := "Sarvodaya Bal Vidhayalaya"
    schoolId := "1925056"
    address := "Sector 4, RK Puram, New Delhi"
    email := "contact@sbv-school.com"
    phone := "+91 11 2345 6789"
    primaryColor := "#1e40af"
    accentColor := "#ca8a04"
    heroTitle := "Empowering Future Leaders"
    heroSubtitle := "Excellence in Education, Character, and Innovation"
    heroImage := "https://picsum.photos/1920/1080?grayscale"
    principalName := "Dr. R.K. Sharma"
    principalMessage := "Welcome to SBV. We believe in nurturing every child's potential through holistic education."
    principalPhoto := "https://picsum.photos/400/400?people"
    stats := { students := 1200, teachers := 85, awards := 150, years := 45 }
    features := { showNews := true, showEvents := true, showGallery := true } }

/-- The error taxonomy of the Account Directory (spec section 7):
InvalidCredentials (login), DuplicateAccount (register), NotFound (role update). -/
inductive DbError where
  | invalidCredentials
  | duplicateAccount
  | notFound
deriving DecidableEq

/-- A value stored in one named slot of the key-value Store (spec section 2:
"opaque key-value persistence ... exposes get/set of named collections"). -/
inductive StoreVal where
  | cfg : SiteConfig → StoreVal
  | news : List NewsItem → StoreVal
  | events : List EventItem → StoreVal
  | gallery : List GalleryItem → StoreVal
deriving DecidableEq

/-- A stored login credential, persisted alongside the profile at
registration (spec section 4.3). -/
structure Cred where
  email : String
  password : String
deriving DecidableEq

/-- Modelled from the spec: the state of the Persistent Store collaborator
(`./services/db`, absent from the snapshot): a key-value map of named
collections, the user directory, the credential store, and the
current-session marker. -/
structure DB where
  data : List (String × StoreVal)
  users : List UserProfile
  creds : List Cred
  session : Option UserProfile

/-- Modelled from the spec: key-value get of a named collection. -/
def kvGet (k : String) : List (String × StoreVal) → Option StoreVal
  | [] => none
  | (k', v) :: rest => if k' == k then some v else kvGet k rest

/-- Modelled from the spec: key-value set of a named collection
(overwrite the slot if present, create it otherwise). -/
def kvSet (k : String) (v : StoreVal) : List (String × StoreVal) → List (String × StoreVal)
  | [] => [(k, v)]
  | (k', v') :: rest => if k' == k then (k, v) :: rest else (k', v') :: kvSet k v rest

/-- Modelled from the spec: `getConfig()` returns the current singleton,
defaulted if never set; never fails (spec section 4.1). -/
def getConfig (s : DB) : SiteConfig :=
  match kvGet "config" s.data with
  | some (.cfg c) => c
  | _ => DEFAULT_CONFIG

/-- Modelled from the spec: `updateConfig(next)` replaces the singleton
wholesale and persists it (spec section 4.1). -/
def updateConfig (next : SiteConfig) (s : DB) : DB :=
  { s with data := kvSet "config" (.cfg next) s.data }

/-- Modelled from the spec: `getNews()` lists the news collection in
insertion order as stored, with no sorting or filtering (spec section 4.2). -/
def getNews (s : DB) : List NewsItem :=
  match kvGet "news" s.data with
  | some (.news l) => l
  | _ => []

/-- Modelled from the spec: `saveNews(list)` replaces the entire news
collection (spec section 4.2). -/
def saveNews (l : List NewsItem) (s : DB) : DB :=
  { s with data := kvSet "news" (.news l) s.data }

/-- Modelled from the spec: `getEvents()` lists the events collection in
insertion order as stored (spec section 4.2). -/
def getEvents (s : DB) : List EventItem :=
  match kvGet "events" s.data with
  | some (.events l) => l
  | _ => []

/-- Modelled from the spec: `saveEvents(list)` replaces the entire events
collection (spec section 4.2). -/
def saveEvents (l : List EventItem) (s : DB) : DB :=
  { s with data := kvSet "events" (.events l) s.data }

/-- Modelled from the spec: `getGallery()` lists the gallery collection in
insertion order as stored (spec section 4.2). -/
def getGallery (s : DB) : List GalleryItem :=
  match kvGet "gallery" s.data with
  | some (.gallery l) => l
  | _ => []

/-- Modelled from the spec: `saveGallery(list)` replaces the entire gallery
collection (spec section 4.2). -/
def saveGallery (l : List GalleryItem) (s : DB) : DB :=
  { s with data := kvSet "gallery" (.gallery l) s.data }

/-- Whether an email is already registered in the credential store. -/
def emailRegistered (e : String) (s : DB) : Bool :=
  s.creds.any (fun c => c.email == e)

/-- Modelled from the spec: `register(email, password, displayName)` fails
with DuplicateAccount when the email is already registered; on success
creates a UserProfile with role=pending and persists the credential
alongside it (spec section 4.3).  The fresh uid is a parameter.  The state
component of the result is the store after the call (unchanged on error). -/
def register (e p n uid : String) (s : DB) : Except DbError UserProfile × DB :=
  if emailRegistered e s then
    (.error .duplicateAccount, s)
  else
    let prof : UserProfile := { uid := uid, email := e, displayName := some n, role := .pending }
    (.ok prof,
     { s with users := s.users ++ [prof]
              creds := s.creds ++ [{ email := e, password := p }]
              session := some prof })

/-- Modelled from the spec: `login(email, password)` fails with
InvalidCredentials when no matching record or password mismatch exists
(spec section 4.3); on success sets the current-session marker. -/
def login (e p : String) (s : DB) : Except DbError UserProfile × DB :=
  match s.creds.find? (fun c => c.email == e && c.password == p) with
  | none => (.error .invalidCredentials, s)
  | some _ =>
    match s.users.find? (fun u => u.email == e) with
    | none => (.error .invalidCredentials, s)
    | some u => (.ok u, { s with session := some u })

/-- Modelled from the spec: `logout()` clears the current-session marker;
idempotent (spec section 4.3). -/
def logout (s : DB) : DB :=
  { s with session := none }

/-- Modelled from the spec: `getCurrentUser()` returns the session's profile
without re-authenticating (spec section 4.3). -/
def getCurrentUser (s : DB) : Option UserProfile :=
  s.session

/-- Modelled from the spec: `getUsers()` returns the full directory
(spec section 4.3, `listUsers`). -/
def getUsers (s : DB) : List UserProfile :=
  s.users

/-- Role rewrite applied to one profile by `updateUserRole`. -/
def setRole (uid : String) (r : UserRole) (u : UserProfile) : UserProfile :=
  if u.uid == uid then { u with role := r } else u

/-- Modelled from the spec: `updateUserRole(uid, newRole)` fails with
NotFound if uid is absent; otherwise rewrites the role of the matching
profile (spec section 4.3). -/
def updateUserRole (uid : String) (r : UserRole) (s : DB) : Except DbError Unit × DB :=
  if s.users.any (fun u => u.uid == uid) then
    (.ok (), { s with users := s.users.map (setRole uid r) })
  else
    (.error .notFound, s)

/-- Directory lookup by uid, as the dashboard's users table reads it. -/
def findUser (uid : String) (s : DB) : Option UserProfile :=
  s.users.find? (fun u => u.uid == uid)

/-- An empty initial store state. -/
def DB.init : DB :=
  { data := [], users := [], creds := [], session := none }

/-!
Dashboard handlers, embedded from `src/App.tsx`.
-/

/-- `Date.now().toString()` — the identifier minted for a new record from
the current timestamp (`App.tsx` lines 959, 970, 977). -/
def mintId (now : Nat) : String :=
  Nat.repr now

/-- The form fields of the Add News form (title, date, content;
`App.tsx` lines 1092-1094). -/
structure NewsFields where
  title : String
  date : String
  content : String

/-- The form fields of the Add Event form (`App.tsx` lines 1118-1121). -/
structure EventFields where
  title : String
  date : String
  location : String
  description : String

/-- The form fields of the Upload Photo form (`App.tsx` lines 1146-1156). -/
structure GalleryFields where
  title : String
  url : String
  category : String

/-- `handleAddNews` (`App.tsx` 958-963): builds the item with a freshly
minted id and `active: true`, prepends it to the cached news list, and
saves the whole collection. -/
def handleAddNews (now : Nat) (f : NewsFields) (news : List NewsItem) (s : DB) : DB :=
  let item : NewsItem :=
    { id := mintId now, title := f.title, date := f.date, content := f.content, active := true }
  saveNews (item :: news) s

/-- `handleDeleteNews` (`App.tsx` 964-967): saves the cached news list with
every item whose id equals the argument filtered out. -/
def handleDeleteNews (id : String) (news : List NewsItem) (s : DB) : DB :=
  saveNews (news.filter (fun n => !(n.id == id))) s

/-- `handleAddEvent` (`App.tsx` 969-974). -/
def handleAddEvent (now : Nat) (f : EventFields) (events : List EventItem) (s : DB) : DB :=
  let item : EventItem :=
    { id := mintId now, title := f.title, date := f.date,
      location := f.location, description := f.description }
  saveEvents (item :: events) s

/-- The event delete button (`App.tsx` 1131): saves the cached events list
with the clicked item's id filtered out. -/
def handleDeleteEvent (id : String) (events : List EventItem) (s : DB) : DB :=
  saveEvents (events.filter (fun x => !(x.id == id))) s

/-- `handleAddGallery` (`App.tsx` 976-981). -/
def handleAddGallery (now : Nat) (f : GalleryFields) (gallery : List GalleryItem) (s : DB) : DB :=
  let item : GalleryItem :=
    { id := mintId now, title := f.title, url := f.url, category := f.category }
  saveGallery (item :: gallery) s

/-- The gallery delete button (`App.tsx` 1167): saves the cached gallery
list with the clicked item's id filtered out. -/
def handleDeleteGallery (id : String) (gallery : List GalleryItem) (s : DB) : DB :=
  saveGallery (gallery.filter (fun x => !(x.id == id))) s

/-- `handleSaveConfig` (`App.tsx` 983-991): persists the site-editor form
state wholesale through `db.updateConfig`. -/
def handleSaveConfig (siteForm : SiteConfig) (s : DB) : DB :=
  updateConfig siteForm s

/-- The two user-management actions of the dashboard
(`App.tsx` 993-996, 1301-1303). -/
inductive UserAction where
  | approve
  | revoke
deriving DecidableEq

/-- The role `handleUserAction` passes to `db.updateUserRole`
(`App.tsx` 994: `action === 'approve' ? 'editor' : 'pending'`). -/
def roleForAction : UserAction → UserRole
  | .approve => .editor
  | .revoke => .pending

/-- `handleUserAction` (`App.tsx` 993-996): forwards to `updateUserRole`
with the role chosen by the action; the component then re-reads the
directory. -/
def handleUserAction (uid : String) (a : UserAction) (s : DB) : DB :=
  (updateUserRole uid (roleForAction a) s).2

/-- A sequence of approve/revoke actions applied through the dashboard. -/
def applyActions (l : List (String × UserAction)) (s : DB) : DB :=
  l.foldl (fun st p => handleUserAction p.1 p.2 st) s

/-!
The stats-field coercion of the Site Editor (`App.tsx` 1229-1232):
`parseInt(e.target.value) || 0`.
-/

/-- Decimal digit-string value, most significant first. -/
def digitsToNat (l : List Char) : Nat :=
  l.foldl (fun acc c => 10 * acc + (c.toNat - '0'.toNat)) 0

/-- The longest leading run of decimal digits, or `none` when it is empty
(the NaN outcome of `parseInt`). -/
def readDecimal (l : List Char) : Option Nat :=
  let d := l.takeWhile Char.isDigit
  if d.isEmpty then none else some (digitsToNat d)

/-- JS `parseInt(string)` restricted to the decimal behaviour exercised by
the number inputs of the site editor: skip leading spaces, read an optional
sign, then the longest leading run of decimal digits; `none` models NaN.
(The hex `0x` branch of `parseInt` is unreachable here: a number input's
value never carries that prefix.) -/
def parseInt (str : String) : Option Int :=
  let l := str.data.dropWhile (fun c => c == ' ')
  if l.head? = some '-' then (readDecimal l.tail).map (fun v => -(v : Int))
  else if l.head? = some '+' then (readDecimal l.tail).map (fun v => (v : Int))
  else (readDecimal l).map (fun v => (v : Int))

/-- The value the site-editor form writes into a stats field
(`App.tsx` 1229-1232): `parseInt(e.target.value) || 0`, so NaN falls back
to 0 (and a parsed 0 stays 0). -/
def statFieldValue (str : String) : Int :=
  match parseInt str with
  | none => 0
  | some v => v

/-!
`ImagePicker` (`App.tsx` 173-208).
-/

/-- A file offered to the `ImagePicker` input: its byte size and the data
URL `FileReader.readAsDataURL` would produce for it. -/
structure JsFile where
  size : Nat
  dataUrl : String

/-- The size cap of `ImagePicker.handleFile` (`App.tsx` 177):
`file.size > 500 * 1024` is rejected. -/
def maxImageBytes : Nat := 500 * 1024

/-- The payload `ImagePicker.handleFile` hands to `onChange` for a file:
`none` when the file exceeds the cap (the handler returns after the alert
and `onChange` is never invoked), otherwise the file's data URL. -/
def imagePickerPayload (f : JsFile) : Option String :=
  if f.size > maxImageBytes then none else some f.dataUrl

/-- The value bound to the image field after the change event: the prior
value when no file is chosen or the file is rejected, the embedded payload
otherwise. -/
def handleFile (f : Option JsFile) (prior : String) : String :=
  match f with
  | none => prior
  | some file => ((imagePickerPayload file).getD prior)

/-!
Decimal representation: a structural reformulation of `Nat.repr`, used to
reason about the ids `mintId` produces.
-/

/-- The decimal digit characters of `n`, most significant first. -/
def decRepr (n : Nat) : List Char :=
  if n < 10 then [Nat.digitChar n]
  else decRepr (n / 10) ++ [Nat.digitChar (n % 10)]
termination_by n
decreasing_by exact Nat.div_lt_self (by omega) (by omega)

theorem decRepr_lt {n : Nat} (h : n < 10) : decRepr n = [Nat.digitChar n] := by
  rw [decRepr, if_pos h]

theorem decRepr_ge {n : Nat} (h : ¬ n < 10) :
    decRepr n = decRepr (n / 10) ++ [Nat.digitChar (n % 10)] := by
  rw [decRepr, if_neg h]

theorem toDigitsCore_eq_decRepr (f : Nat) :
    ∀ (n : Nat) (acc : List Char), n < f →
      Nat.toDigitsCore 10 f n acc = decRepr n ++ acc := by
  induction f with
  | zero => intro n acc h; omega
  | succ f ih =>
    intro n acc h
    by_cases hz : n / 10 = 0
    · have hn : n < 10 := by omega
      have hm : n % 10 = n := Nat.mod_eq_of_lt hn
      simp [Nat.toDigitsCore, hz, decRepr_lt hn, hm]
    · have h10 : ¬ n < 10 := by omega
      have hdlt : n / 10 < f := by omega
      have hstep :
          Nat.toDigitsCore 10 (f + 1) n acc =
            Nat.toDigitsCore 10 f (n / 10) (Nat.digitChar (n % 10) :: acc) := by
        simp [Nat.toDigitsCore, hz]
      rw [hstep, ih (n / 10) (Nat.digitChar (n % 10) :: acc) hdlt, decRepr_ge h10]
      simp

theorem repr_eq_decRepr (n : Nat) : Nat.repr n = (decRepr n).asString := by
  have h := toDigitsCore_eq_decRepr (n + 1) n [] (by omega)
  simp [Nat.repr, Nat.toDigits, h]

theorem digitChar_inj_lt : ∀ a < 10, ∀ b < 10, Nat.digitChar a = Nat.digitChar b → a = b := by
  decide

theorem decRepr_ne_nil (n : Nat) : decRepr n ≠ [] := by
  by_cases h : n < 10
  · rw [decRepr_lt h]; simp
  · rw [decRepr_ge h]; simp

theorem decRepr_inj : ∀ n m : Nat, decRepr n = decRepr m → n = m := by
  intro n
  induction n using Nat.strong_induction_on with
  | _ n ih =>
    intro m h
    by_cases hn : n < 10
    · by_cases hm : m < 10
      · rw [decRepr_lt hn, decRepr_lt hm] at h
        exact digitChar_inj_lt n hn m hm (List.singleton_injective h)
      · rw [decRepr_lt hn, decRepr_ge hm] at h
        have hlen := congrArg List.length h
        simp at hlen
        exact absurd hlen (decRepr_ne_nil (m / 10))
    · by_cases hm : m < 10
      · rw [decRepr_ge hn, decRepr_lt hm] at h
        have hlen := congrArg List.length h
        simp at hlen
        exact absurd hlen (decRepr_ne_nil (n / 10))
      · rw [decRepr_ge hn, decRepr_ge hm] at h
        have hlen : ([Nat.digitChar (n % 10)] : List Char).length =
            ([Nat.digitChar (m % 10)] : List Char).length := rfl
        obtain ⟨h1, h2⟩ := List.append_inj' h hlen
        have hdiv : n / 10 = m / 10 :=
          ih (n / 10) (Nat.div_lt_self (by omega) (by omega)) (m / 10) h1
        have hmod : n % 10 = m % 10 :=
          digitChar_inj_lt (n % 10) (Nat.mod_lt _ (by omega)) (m % 10)
            (Nat.mod_lt _ (by omega)) (List.singleton_injective h2)
        omega

theorem mintId_inj (t1 t2 : Nat) (h : mintId t1 = mintId t2) : t1 = t2 := by
  unfold mintId at h
  rw [repr_eq_decRepr, repr_eq_decRepr] at h
  exact decRepr_inj t1 t2 (congrArg String.data h)

/-!
Store lemmas.
-/

theorem kvGet_kvSet_same (k : String) (v : StoreVal) :
    ∀ m : List (String × StoreVal), kvGet k (kvSet k v m) = some v := by
  intro m
  induction m with
  | nil => simp [kvGet, kvSet]
  | cons hd tl ih =>
    obtain ⟨k', v'⟩ := hd
    by_cases h : k' == k
    · simp [kvSet, kvGet, h]
    · simp [kvSet, kvGet, h, ih]

/-!
Claim theorems.
-/

/-- Claim C1: for every valid SiteConfig value v, calling updateConfig(v)
and then getConfig() returns exactly v — the singleton is replaced
wholesale, and every field of v is what the subsequent read observes. -/
theorem config_update_get_roundtrip (v : SiteConfig) (s : DB) :
    getConfig (updateConfig v s) = v := by
  simp [getConfig, updateConfig, kvGet_kvSet_same]

/-- Claim C2: for every finite sequence S of NewsItem (resp. EventItem,
GalleryItem), save(S) on the corresponding collection followed by list()
returns S itself, same elements in the same order; the repository applies
no sorting or filtering. -/
theorem collections_save_list_roundtrip (s : DB)
    (ns : List NewsItem) (es : List EventItem) (gs : List GalleryItem) :
    getNews (saveNews ns s) = ns ∧
    getEvents (saveEvents es s) = es ∧
    getGallery (saveGallery gs s) = gs := by
  refine ⟨?_, ?_, ?_⟩
  · simp [getNews, saveNews, kvGet_kvSet_same]
  · simp [getEvents, saveEvents, kvGet_kvSet_same]
  · simp [getGallery, saveGallery, kvGet_kvSet_same]

/-- Claim C10: the dashboard delete operation — for news, events, and
gallery alike — saves exactly the items of the current cached list whose
id differs from the deleted id: the stored collection afterwards is a
sublist of the original (every kept item unchanged field-for-field, in its
original relative position), and an item is kept iff its id differs. -/
theorem delete_filters_by_id (x : String) (s : DB)
    (ns : List NewsItem) (es : List EventItem) (gs : List GalleryItem) :
    (getNews (handleDeleteNews x ns s)).Sublist ns ∧
    (∀ n : NewsItem, n ∈ getNews (handleDeleteNews x ns s) ↔ n ∈ ns ∧ n.id ≠ x) ∧
    (getEvents (handleDeleteEvent x es s)).Sublist es ∧
    (∀ e : EventItem, e ∈ getEvents (handleDeleteEvent x es s) ↔ e ∈ es ∧ e.id ≠ x) ∧
    (getGallery (handleDeleteGallery x gs s)).Sublist gs ∧
    (∀ g : GalleryItem, g ∈ getGallery (handleDeleteGallery x gs s) ↔ g ∈ gs ∧ g.id ≠ x) := by
  have hn : getNews (handleDeleteNews x ns s) = ns.filter (fun n => !(n.id == x)) := by
    simp [handleDeleteNews, getNews, saveNews, kvGet_kvSet_same]
  have he : getEvents (handleDeleteEvent x es s) = es.filter (fun e => !(e.id == x)) := by
    simp [handleDeleteEvent, getEvents, saveEvents, kvGet_kvSet_same]
  have hg : getGallery (handleDeleteGallery x gs s) = gs.filter (fun g => !(g.id == x)) := by
    simp [handleDeleteGallery, getGallery, saveGallery, kvGet_kvSet_same]
  refine ⟨?_, ?_, ?_, ?_, ?_, ?_⟩
  · rw [hn]; exact List.filter_sublist ns
  · intro n; rw [hn]; simp [List.mem_filter]
  · rw [he]; exact List.filter_sublist es
  · intro e; rw [he]; simp [List.mem_filter]
  · rw [hg]; exact List.filter_sublist gs
  · intro g; rw [hg]; simp [List.mem_filter]

/-- Claim C3: registering an already-registered email fails with
DuplicateAccount and leaves the store — including the previously
registered profile — unchanged; registering a fresh email succeeds and
creates a UserProfile with role pending, present in the directory
afterwards. -/
theorem register_duplicate_or_pending (e p n uid : String) (s : DB) :
    (emailRegistered e s = true →
       register e p n uid s = (.error .duplicateAccount, s)) ∧
    (emailRegistered e s = false →
       (register e p n uid s).1 =
         .ok { uid := uid, email := e, displayName := some n, role := .pending } ∧
       ({ uid := uid, email := e, displayName := some n, role := .pending } : UserProfile) ∈
         getUsers (register e p n uid s).2) := by
  constructor
  · intro h
    simp [register, h]
  · intro h
    simp [register, h, getUsers]

/-- Claim C3 witness at concrete inputs: the second registration of
"a@b.c" fails with DuplicateAccount and leaves the store as it was, and a
fresh registration yields a pending profile. -/
theorem register_duplicate_or_pending_witness :
    register "a@b.c" "pw2" "B" "u2" (register "a@b.c" "pw" "A" "u1" DB.init).2 =
      (.error .duplicateAccount, (register "a@b.c" "pw" "A" "u1" DB.init).2) ∧
    (register "x@y.z" "pw" "X" "u3" DB.init).1 =
      .ok { uid := "u3", email := "x@y.z", displayName := some "X", role := .pending } :=
  ⟨(register_duplicate_or_pending "a@b.c" "pw2" "B" "u2"
      (register "a@b.c" "pw" "A" "u1" DB.init).2).1 (by decide),
   ((register_duplicate_or_pending "x@y.z" "pw" "X" "u3" DB.init).2 (by decide)).1⟩

/-- Claim C4: when no stored credential has both the given email and the
given password, login fails with InvalidCredentials, the store is
unchanged, and no session is created — getCurrentUser afterwards returns
what it returned before. -/
theorem login_invalid_credentials (e p : String) (s : DB)
    (h : ∀ c ∈ s.creds, ¬(c.email = e ∧ c.password = p)) :
    login e p s = (.error .invalidCredentials, s) ∧
    getCurrentUser (login e p s).2 = getCurrentUser s := by
  have hfind : s.creds.find? (fun c => c.email == e && c.password == p) = none := by
    rw [List.find?_eq_none]
    intro c hc
    simp only [Bool.and_eq_true, beq_iff_eq, not_and]
    intro h1 h2
    exact h c hc ⟨h1, h2⟩
  constructor
  · simp [login, hfind]
  · simp [login, hfind]

/-- Claim C4 witness: logging in against a store where the password on
file for "a@b.c" is "pw", with the wrong password "bad", fails with
InvalidCredentials and leaves the session as it was. -/
theorem login_invalid_credentials_witness :
    login "a@b.c" "bad" (register "a@b.c" "pw" "A" "u1" DB.init).2 =
      (.error .invalidCredentials, (register "a@b.c" "pw" "A" "u1" DB.init).2) ∧
    getCurrentUser (login "a@b.c" "bad" (register "a@b.c" "pw" "A" "u1" DB.init).2).2 =
      getCurrentUser (register "a@b.c" "pw" "A" "u1" DB.init).2 :=
  login_invalid_credentials "a@b.c" "bad" (register "a@b.c" "pw" "A" "u1" DB.init).2
    (by decide)

/-- Claim C5: updateUserRole on a uid absent from the directory fails with
NotFound and leaves the whole directory (indeed the whole store)
unchanged — no profile is modified. -/
theorem updateUserRole_notFound (uid : String) (r : UserRole) (s : DB)
    (h : ∀ u ∈ s.users, u.uid ≠ uid) :
    updateUserRole uid r s = (.error .notFound, s) ∧
    getUsers (updateUserRole uid r s).2 = getUsers s := by
  have hany : s.users.any (fun u => u.uid == uid) = false := by
    rw [List.any_eq_false]
    intro u hu
    simp [h u hu]
  constructor
  · simp [updateUserRole, hany]
  · simp [updateUserRole, hany]

/-- Claim C5 witness: updating the role of an absent uid in a directory
holding only "u1" fails with NotFound and changes nothing. -/
theorem updateUserRole_notFound_witness :
    updateUserRole "ghost" .editor (register "a@b.c" "pw" "A" "u1" DB.init).2 =
      (.error .notFound, (register "a@b.c" "pw" "A" "u1" DB.init).2) ∧
    getUsers (updateUserRole "ghost" .editor (register "a@b.c" "pw" "A" "u1" DB.init).2).2 =
      getUsers (register "a@b.c" "pw" "A" "u1" DB.init).2 :=
  updateUserRole_notFound "ghost" .editor (register "a@b.c" "pw" "A" "u1" DB.init).2
    (by decide)

theorem find?_map_setRole (uid : String) (r : UserRole) :
    ∀ (l : List UserProfile) (u : UserProfile),
      l.find? (fun x => x.uid == uid) = some u →
      (l.map (setRole uid r)).find? (fun x => x.uid == uid) = some { u with role := r } := by
  intro l
  induction l with
  | nil => intro u h; simp at h
  | cons hd tl ih =>
    intro u h
    by_cases hh : (hd.uid == uid) = true
    · rw [@List.find?_cons_of_pos UserProfile (fun x => x.uid == uid) hd tl hh] at h
      obtain rfl : hd = u := Option.some.inj h
      simp [setRole, hh]
    · rw [@List.find?_cons_of_neg UserProfile (fun x => x.uid == uid) hd tl hh] at h
      have hset : setRole uid r hd = hd := by simp [setRole, hh]
      simp only [List.map_cons, hset]
      rw [@List.find?_cons_of_neg UserProfile (fun x => x.uid == uid) hd (tl.map (setRole uid r)) hh]
      exact ih u h

theorem findUser_after_action (uid : String) (a : UserAction) (s : DB) (u : UserProfile)
    (h : findUser uid s = some u) :
    findUser uid (handleUserAction uid a s) = some { u with role := roleForAction a } := by
  have h' : s.users.find? (fun x => x.uid == uid) = some u := h
  have hp : (u.uid == uid) = true :=
    @List.find?_some UserProfile (fun x => x.uid == uid) u s.users h'
  have hmem : u ∈ s.users :=
    @List.mem_of_find?_eq_some UserProfile (fun x => x.uid == uid) u s.users h'
  have hany : s.users.any (fun x => x.uid == uid) = true :=
    List.any_eq_true.mpr ⟨u, hmem, hp⟩
  show ((updateUserRole uid (roleForAction a) s).2).users.find? (fun x => x.uid == uid) = _
  unfold updateUserRole
  simp only [hany, if_true]
  exact find?_map_setRole uid (roleForAction a) s.users u h'

theorem handleUserAction_role_origin (uid : String) (a : UserAction) (s : DB)
    (v : UserProfile) (hv : v ∈ (handleUserAction uid a s).users)
    (hrole : v.role = .dev ∨ v.role = .viewer) :
    ∃ w ∈ s.users, w.uid = v.uid ∧ w.role = v.role := by
  unfold handleUserAction updateUserRole at hv
  by_cases hany : s.users.any (fun x => x.uid == uid) = true
  · simp only [hany, if_true, List.mem_map] at hv
    obtain ⟨w, hw, hwv⟩ := hv
    by_cases hww : (w.uid == uid) = true
    · exfalso
      have hva : v.role = roleForAction a := by
        rw [← hwv]; simp [setRole, hww]
      cases a <;> simp [roleForAction] at hva <;> rw [hva] at hrole <;> simp at hrole
    · have hwv' : w = v := by rw [← hwv]; simp [setRole, hww]
      subst hwv'
      exact ⟨w, hw, rfl, rfl⟩
  · simp only [hany, if_false] at hv
    exact ⟨v, hv, rfl, rfl⟩

theorem applyActions_role_origin :
    ∀ (l : List (String × UserAction)) (s : DB) (v : UserProfile),
      v ∈ (applyActions l s).users → (v.role = .dev ∨ v.role = .viewer) →
      ∃ w ∈ s.users, w.uid = v.uid ∧ w.role = v.role := by
  intro l
  induction l with
  | nil =>
    intro s v hv _
    exact ⟨v, hv, rfl, rfl⟩
  | cons p tl ih =>
    intro s v hv hr
    obtain ⟨w, hw, huid, hrole⟩ :=
      ih (handleUserAction p.1 p.2 s) v hv hr
    obtain ⟨w', hw', huid', hrole'⟩ :=
      handleUserAction_role_origin p.1 p.2 s w hw (by rw [hrole]; exact hr)
    exact ⟨w', hw', by rw [huid', huid], by rw [hrole', hrole]⟩

/-- Claim C6: under the approve/revoke state machine of the dashboard,
approve on a profile with role pending yields role editor on the next
directory read, revoke afterwards returns it to pending, and no sequence
of these two transitions ever produces the roles dev or viewer — any
profile carrying dev or viewer after a sequence of dashboard actions
already carried that role in the starting directory. -/
theorem role_state_machine (uid : String) (s : DB) (u : UserProfile)
    (h : findUser uid s = some u) (hrole : u.role = .pending) :
    findUser uid (handleUserAction uid .approve s) = some { u with role := .editor } ∧
    findUser uid (handleUserAction uid .revoke (handleUserAction uid .approve s)) =
      some { u with role := .pending } ∧
    (∀ (l : List (String × UserAction)) (v : UserProfile),
       v ∈ (applyActions l s).users → (v.role = .dev ∨ v.role = .viewer) →
       ∃ w ∈ s.users, w.uid = v.uid ∧ w.role = v.role) := by
  refine ⟨?_, ?_, ?_⟩
  · exact findUser_after_action uid .approve s u h
  · have h1 := findUser_after_action uid .approve s u h
    exact findUser_after_action uid .revoke (handleUserAction uid .approve s)
      { u with role := roleForAction .approve } h1
  · intro l v hv hr
    exact applyActions_role_origin l s v hv hr

/-- A concrete directory used to exercise the role state machine: one dev
account and one pending account. -/
def demoDirectory : DB :=
  { data := []
    users := [{ uid := "u0", email := "d@x.y", displayName := some "D", role := .dev },
              { uid := "u1", email := "a@b.c", displayName := some "A", role := .pending }]
    creds := [{ email := "d@x.y", password := "pw0" }, { email := "a@b.c", password := "pw1" }]
    session := none }

/-- Claim C6 witness: in the concrete directory, approving the pending
user "u1" makes it editor, revoking afterwards returns it to pending, and
the dev profile surviving an approve action already was dev initially. -/
theorem role_state_machine_witness :
    findUser "u1" (handleUserAction "u1" .approve demoDirectory) =
      some { uid := "u1", email := "a@b.c", displayName := some "A", role := .editor } ∧
    findUser "u1" (handleUserAction "u1" .revoke (handleUserAction "u1" .approve demoDirectory)) =
      some { uid := "u1", email := "a@b.c", displayName := some "A", role := .pending } ∧
    (∃ w ∈ demoDirectory.users, w.uid = "u0" ∧ w.role = .dev) := by
  have hthm := role_state_machine "u1" demoDirectory
    { uid := "u1", email := "a@b.c", displayName := some "A", role := .pending }
    (by decide) rfl
  refine ⟨hthm.1, hthm.2.1, ?_⟩
  exact hthm.2.2 [("u1", .approve)]
    { uid := "u0", email := "d@x.y", displayName := some "D", role := .dev }
    (by decide) (Or.inl rfl)

/-- Claim C7 counterexample: typing "-5" into a stats field writes the
negative integer -5 into SiteConfig.stats — `parseInt(x) || 0` parses the
minus sign and does not clamp, so a negative value does reach the stats
record through the form and a subsequent config save. -/
theorem statField_negative_counterexample :
    statFieldValue "-5" = -5 ∧
    ¬ (0 ≤ statFieldValue "-5") ∧
    (getConfig (handleSaveConfig
        { DEFAULT_CONFIG with
            stats := { DEFAULT_CONFIG.stats with students := statFieldValue "-5" } }
        DB.init)).stats.students = -5 := by
  refine ⟨by decide, by decide, ?_⟩
  rw [handleSaveConfig, config_update_get_roundtrip]
  decide

/-- Claim C7 amended: the stats-field coercion writes `parseInt(input)||0`
into the record — blank or otherwise unparsable input is coerced to 0, and
any input string containing no minus sign yields a non-negative integer;
an input with a leading minus sign, however, passes its negative value
through unclamped. -/
theorem statField_coercion_amended (str : String) :
    (parseInt str = none → statFieldValue str = 0) ∧
    ('-' ∉ str.data → 0 ≤ statFieldValue str) := by
  constructor
  · intro h
    simp [statFieldValue, h]
  · intro hnm
    unfold statFieldValue parseInt
    by_cases h1 : (str.data.dropWhile (fun c => c == ' ')).head? = some '-'
    · exfalso
      have hmem : '-' ∈ str.data.dropWhile (fun c => c == ' ') :=
        List.mem_of_mem_head? (by rw [h1]; rfl)
      exact hnm ((List.dropWhile_sublist _).subset hmem)
    · by_cases h2 : (str.data.dropWhile (fun c => c == ' ')).head? = some '+'
      · simp only [h1, h2, if_false, if_true]
        cases hr : readDecimal (str.data.dropWhile (fun c => c == ' ')).tail with
        | none => simp [hr]
        | some v => simp [hr]
      · simp only [h1, h2, if_false]
        cases hr : readDecimal (str.data.dropWhile (fun c => c == ' ')) with
        | none => simp [hr]
        | some v => simp [hr]

/-- Claim C7 amended witness: "abc" does not parse and is coerced to 0;
"42" carries no minus sign and yields the non-negative 42. -/
theorem statField_coercion_amended_witness :
    (parseInt "abc" = none ∧ statFieldValue "abc" = 0) ∧
    ('-' ∉ "42".data ∧ 0 ≤ statFieldValue "42") :=
  ⟨⟨by decide, (statField_coercion_amended "abc").1 (by decide)⟩,
   ⟨by decide, (statField_coercion_amended "42").2 (by decide)⟩⟩

/-- Claim C8: a file whose size exceeds 500KB (500*1024 bytes) produces no
payload — the onChange callback is never invoked and the bound image field
keeps its prior value — while a file of at most 500KB yields its embedded
data-URL payload, which becomes the bound value. -/
theorem imagePicker_size_cap (f : JsFile) (prior : String) :
    (f.size > 500 * 1024 →
       imagePickerPayload f = none ∧ handleFile (some f) prior = prior) ∧
    (f.size ≤ 500 * 1024 →
       imagePickerPayload f = some f.dataUrl ∧ handleFile (some f) prior = f.dataUrl) := by
  constructor
  · intro h
    have hif : imagePickerPayload f = none := by
      simp [imagePickerPayload, maxImageBytes, h]
    exact ⟨hif, by simp [handleFile, hif]⟩
  · intro h
    have hif : imagePickerPayload f = some f.dataUrl := by
      simp [imagePickerPayload, maxImageBytes]
      omega
    exact ⟨hif, by simp [handleFile, hif]⟩

/-- Claim C8 witness: a 512001-byte file is rejected (prior value kept), a
1024-byte file's data URL becomes the bound value. -/
theorem imagePicker_size_cap_witness :
    (imagePickerPayload { size := 512001, dataUrl := "dataA" } = none ∧
     handleFile (some { size := 512001, dataUrl := "dataA" }) "old" = "old") ∧
    (imagePickerPayload { size := 1024, dataUrl := "dataB" } = some "dataB" ∧
     handleFile (some { size := 1024, dataUrl := "dataB" }) "old" = "dataB") :=
  ⟨(imagePicker_size_cap { size := 512001, dataUrl := "dataA" } "old").1 (by decide),
   (imagePicker_size_cap { size := 1024, dataUrl := "dataB" } "old").2 (by decide)⟩

/-- Concrete news form payloads used to exhibit an id collision. -/
def newsFieldsA : NewsFields :=
  { title := "Sports Day", date := "2024-01-01", content := "a" }

/-- Second concrete news form payload for the collision scenario. -/
def newsFieldsB : NewsFields :=
  { title := "Results Out", date := "2024-01-02", content := "b" }

/-- The store after two dashboard news creations in the same millisecond
(`Date.now()` returning 5 both times), the second one working on the
refreshed list, as the dashboard flow does. -/
def collisionState : DB :=
  handleAddNews 5 newsFieldsB
    (getNews (handleAddNews 5 newsFieldsA [] DB.init))
    (handleAddNews 5 newsFieldsA [] DB.init)

/-- Claim C9 counterexample: two records created through the dashboard in
the same millisecond receive the same id "5" — the stored collection holds
two records with identical ids, so the minting scheme does not give every
created record a unique identifier. -/
theorem mint_collision_counterexample :
    (getNews collisionState).map NewsItem.id = ["5", "5"] ∧
    ¬ ((getNews collisionState).map NewsItem.id).Nodup := by
  constructor
  · decide
  · decide

/-- Claim C9 amended: ids minted by the dashboard creation handlers are
distinct whenever the two creations observe distinct Date.now values
(mintId is injective), and each handler stamps the new record with the id
minted from its timestamp at the head of the stored collection; two
creations within the same millisecond, however, share an id. -/
theorem mint_distinct_times_amended (t1 t2 : Nat) (h : t1 ≠ t2) :
    mintId t1 ≠ mintId t2 ∧
    (∀ (f : NewsFields) (L : List NewsItem) (s : DB),
       (getNews (handleAddNews t1 f L s)).map NewsItem.id =
         mintId t1 :: L.map NewsItem.id) ∧
    (∀ (f : EventFields) (L : List EventItem) (s : DB),
       (getEvents (handleAddEvent t1 f L s)).map EventItem.id =
         mintId t1 :: L.map EventItem.id) ∧
    (∀ (f : GalleryFields) (L : List GalleryItem) (s : DB),
       (getGallery (handleAddGallery t1 f L s)).map GalleryItem.id =
         mintId t1 :: L.map GalleryItem.id) := by
  refine ⟨fun hc => h (mintId_inj t1 t2 hc), ?_, ?_, ?_⟩
  · intro f L s
    simp [handleAddNews, getNews, saveNews, kvGet_kvSet_same]
  · intro f L s
    simp [handleAddEvent, getEvents, saveEvents, kvGet_kvSet_same]
  · intro f L s
    simp [handleAddGallery, getGallery, saveGallery, kvGet_kvSet_same]

/-- Claim C9 amended witness: timestamps 3 and 7 mint distinct ids, and a
news creation at timestamp 3 puts id "3" at the head of the collection. -/
theorem mint_distinct_times_amended_witness :
    mintId 3 ≠ mintId 7 ∧
    (getNews (handleAddNews 3 newsFieldsA [] DB.init)).map NewsItem.id =
      mintId 3 :: ([] : List NewsItem).map NewsItem.id :=
  ⟨(mint_distinct_times_amended 3 7 (by decide)).1,
   (mint_distinct_times_amended 3 7 (by decide)).2.1 newsFieldsA [] DB.init⟩
